import Mathlib

/-!
Verification of the winefeed import scripts
(`scripts/import-systembolaget.py` and `scripts/import-simple.py`).

The scripts are shallowly embedded: Python dicts become association lists
over a flat value type `PyVal`, Python integers become `ℤ`, and the
fallible coercion `int(...)` returns `Except`.  The HTTP layer of the
Source Fetcher is abstracted into an outcome type `FetchOutcome`; the
Batch Uploader is modelled by the list of POST bodies it issues.
-/

namespace Winefeed

/-- Values stored in the scripts' record dicts: JSON strings, numbers,
booleans and Python `None`/ JSON null.  Numbers carry `ℤ`: Python integers
are arbitrary precision, and every numeric value the scripts construct or
compare is an integer (fractional provider prices are outside the
embedding). -/
inductive PyVal : Type where
  | str (s : String)
  | num (n : ℤ)
  | bool (b : Bool)
  | none
deriving DecidableEq, Repr

/-- A Python dict as used by the scripts: an association list from string
keys to flat values, first binding wins. -/
abbrev Rec := List (String × PyVal)

/-- Python `d.get(k)` restricted to `Option`: the value at `k`, if present. -/
def recGet? (d : Rec) (k : String) : Option PyVal :=
  (d.find? (fun p => p.1 == k)).map (fun p => p.2)

/-- Python `d.get(k, default)`. -/
def recGetD (d : Rec) (k : String) (v : PyVal) : PyVal :=
  (recGet? d k).getD v

/-- Python subscript `d[k]`.  Every use in the scripts is on a template
dict that carries the key, so the `KeyError` branch (key absent) is mapped
to `PyVal.none` rather than an exception. -/
def recItem (d : Rec) (k : String) : PyVal :=
  recGetD d k PyVal.none

/-- Python dict update `d[k] = v` (equivalently the `{**d, k: v}` spread
used in `create_mock_wines`): replaces the value in place when the key is
present, otherwise appends the binding. -/
def recSet : Rec → String → PyVal → Rec
  | [], k, v => [(k, v)]
  | p :: t, k, v => if p.1 == k then (k, v) :: t else p :: recSet t k v

/-- Python `str(...)` on the values the scripts pass to it: strings,
integers, booleans and `None` render exactly as in Python. -/
def pyStr : PyVal → String
  | PyVal.str s => s
  | PyVal.num n => toString n
  | PyVal.bool b => if b then "True" else "False"
  | PyVal.none => "None"

/-- Splitting a character list on whitespace runs, accumulating the
current token in reverse: the recursion behind `pySplit`. -/
def wsSplit : List Char → List Char → List String
  | acc, [] => if acc.isEmpty then [] else [String.mk acc.reverse]
  | acc, c :: cs =>
    if c.isWhitespace then
      if acc.isEmpty then wsSplit [] cs
      else String.mk acc.reverse :: wsSplit [] cs
    else wsSplit (c :: acc) cs

/-- Python `str.split()` with no separator: split on whitespace runs,
discarding empty pieces. -/
def pySplit (s : String) : List String :=
  wsSplit [] s.data

/-- `s.split()[0]` as used in `create_200_wines`.  Every template name is
non-blank, so the `IndexError` branch (blank string) is mapped to `""`. -/
def pySplitHead (s : String) : String :=
  (pySplit s).headD ""

/-- Python `int(v)` on the values reaching the Transformer's price
coercion: the identity on an integer (truncation is trivial there),
0/1 on a boolean, and an exception (`TypeError`) on `None`; `int` of a
string is not exercised by the scripts and is likewise mapped to the
error branch. -/
def pyInt : PyVal → Except String ℤ
  | PyVal.num n => Except.ok n
  | PyVal.bool b => Except.ok (if b then 1 else 0)
  | _ => Except.error "TypeError"

/-- Python `v + n` for the price derivations: every template price is a
number, so the `TypeError` branch (non-numeric left operand) returns the
operand unchanged instead of raising. -/
def pyAddNat (v : PyVal) (n : ℕ) : PyVal :=
  match v with
  | PyVal.num m => PyVal.num (m + n)
  | v => v

/-- The eight base templates of `create_mock_wines` in
`import-systembolaget.py` (English key names, no stock-status key). -/
def sbBaseWines : List Rec :=
  [ [ ("name", PyVal.str "Barolo DOCG"),
      ("producer", PyVal.str "Marchesi di Barolo"),
      ("country", PyVal.str "Italien"),
      ("region", PyVal.str "Piemonte"),
      ("price", PyVal.num 385),
      ("description", PyVal.str "Kraftfull Nebbiolo med toner av körsbär, tryffel och läder. Passar vilt, ostklass och röda köttgryter. Lång lagringsförmåga."),
      ("grape", PyVal.str "Nebbiolo"),
      ("organic", PyVal.bool false) ],
    [ ("name", PyVal.str "Chianti Classico Riserva DOCG"),
      ("producer", PyVal.str "Castello di Ama"),
      ("country", PyVal.str "Italien"),
      ("region", PyVal.str "Toscana"),
      ("price", PyVal.num 215),
      ("description", PyVal.str "Elegant Sangiovese med toner av körsbär, violer och läder. Perfekt till pasta med tomatsås och grillat kött."),
      ("grape", PyVal.str "Sangiovese"),
      ("organic", PyVal.bool false) ],
    [ ("name", PyVal.str "Chablis Premier Cru"),
      ("producer", PyVal.str "William Fèvre"),
      ("country", PyVal.str "Frankrike"),
      ("region", PyVal.str "Bourgogne"),
      ("price", PyVal.num 265),
      ("description", PyVal.str "Mineralisk Chardonnay med toner av citrus och vit persika. Utmärkt till skaldjur och vit fisk."),
      ("grape", PyVal.str "Chardonnay"),
      ("organic", PyVal.bool false) ],
    [ ("name", PyVal.str "Rioja Reserva DOCa"),
      ("producer", PyVal.str "Marqués de Riscal"),
      ("country", PyVal.str "Spanien"),
      ("region", PyVal.str "Rioja"),
      ("price", PyVal.num 185),
      ("description", PyVal.str "Balanserad Tempranillo med toner av röda bär, vanilj och ek. Passar lamm och tapas."),
      ("grape", PyVal.str "Tempranillo"),
      ("organic", PyVal.bool false) ],
    [ ("name", PyVal.str "Pouilly-Fumé"),
      ("producer", PyVal.str "Domaine Didier Dagueneau"),
      ("country", PyVal.str "Frankrike"),
      ("region", PyVal.str "Loire"),
      ("price", PyVal.num 345),
      ("description", PyVal.str "Aromatisk Sauvignon Blanc med toner av färsk frukt och mineraler. Perfekt till getost och skaldjur."),
      ("grape", PyVal.str "Sauvignon Blanc"),
      ("organic", PyVal.bool true) ],
    [ ("name", PyVal.str "Amarone della Valpolicella DOCG"),
      ("producer", PyVal.str "Tommasi"),
      ("country", PyVal.str "Italien"),
      ("region", PyVal.str "Veneto"),
      ("price", PyVal.num 425),
      ("description", PyVal.str "Kraftfull och komplex med toner av mörka bär, choklad och kryddor. Passar ostklass och vilt."),
      ("grape", PyVal.str "Corvina, Rondinella"),
      ("organic", PyVal.bool false) ],
    [ ("name", PyVal.str "Châteauneuf-du-Pape"),
      ("producer", PyVal.str "Domaine du Vieux Télégraphe"),
      ("country", PyVal.str "Frankrike"),
      ("region", PyVal.str "Rhône"),
      ("price", PyVal.num 395),
      ("description", PyVal.str "Komplex blend med toner av mörka bär, örter och kryddor. Perfekt till grillat kött."),
      ("grape", PyVal.str "Grenache, Syrah, Mourvèdre"),
      ("organic", PyVal.bool false) ],
    [ ("name", PyVal.str "Sancerre"),
      ("producer", PyVal.str "Pascal Jolivet"),
      ("country", PyVal.str "Frankrike"),
      ("region", PyVal.str "Loire"),
      ("price", PyVal.num 195),
      ("description", PyVal.str "Fräsch Sauvignon Blanc med toner av citrus och gröna äpplen. Perfekt till getost."),
      ("grape", PyVal.str "Sauvignon Blanc"),
      ("organic", PyVal.bool false) ] ]

/-- The loop body of `create_mock_wines` at repetition index `i`:
`{**wine, "name": f"{wine['name']} {2015 + (i % 8)}",
 "price": wine["price"] + (i * 10 % 100)}`. -/
def deriveSB (i : ℕ) (w : Rec) : Rec :=
  recSet
    (recSet w "name"
      (PyVal.str (pyStr (recItem w "name") ++ " " ++ toString (2015 + i % 8))))
    "price" (pyAddNat (recItem w "price") (i * 10 % 100))

/-- The loop body of `create_200_wines` at repetition index `i`:
copies the template, then
`wine["namn"] = f"{wine['namn'].split()[0]} {2015 + (i % 8)}"` and
`wine["pris_sek"] = wine["pris_sek"] + ((i * 10) % 100)`. -/
def deriveSimple (i : ℕ) (w : Rec) : Rec :=
  recSet
    (recSet w "namn"
      (PyVal.str (pySplitHead (pyStr (recItem w "namn")) ++ " " ++
        toString (2015 + i % 8))))
    "pris_sek" (pyAddNat (recItem w "pris_sek") (i * 10 % 100))

/-- The common shape of both mock generators: the nested
`for i in range(R): for wine in templates: append(derive(i, wine))` loop
followed by the `[:200]` slice. -/
def mockExpand (derive : ℕ → Rec → Rec) (reps : ℕ) (templates : List Rec) :
    List Rec :=
  (((List.range reps).map (fun i => templates.map (derive i))).flatten).take 200

/-- `create_mock_wines` from `import-systembolaget.py`: 25 repetitions
over the eight `sbBaseWines` templates, sliced to 200. -/
def create_mock_wines : List Rec :=
  mockExpand deriveSB 25 sbBaseWines

/-- The eight `BASE_WINES` templates of `import-simple.py` (Swedish key
names, vintage year already in the name, stock-status key present). -/
def BASE_WINES : List Rec :=
  [ [ ("namn", PyVal.str "Barolo DOCG 2019"),
      ("producent", PyVal.str "Marchesi di Barolo"),
      ("land", PyVal.str "Italien"),
      ("region", PyVal.str "Piemonte"),
      ("pris_sek", PyVal.num 385),
      ("beskrivning", PyVal.str "Kraftfull Nebbiolo med toner av körsbär, tryffel och läder. Passar vilt, ostklass och röda köttgryter. Lång lagringsförmåga."),
      ("druva", PyVal.str "Nebbiolo"),
      ("ekologisk", PyVal.bool false),
      ("lagerstatus", PyVal.str "tillgänglig") ],
    [ ("namn", PyVal.str "Chianti Classico Riserva DOCG 2020"),
      ("producent", PyVal.str "Castello di Ama"),
      ("land", PyVal.str "Italien"),
      ("region", PyVal.str "Toscana"),
      ("pris_sek", PyVal.num 215),
      ("beskrivning", PyVal.str "Elegant Sangiovese med toner av körsbär, violer och läder. Perfekt till pasta med tomatsås och grillat kött."),
      ("druva", PyVal.str "Sangiovese"),
      ("ekologisk", PyVal.bool false),
      ("lagerstatus", PyVal.str "tillgänglig") ],
    [ ("namn", PyVal.str "Chablis Premier Cru 2021"),
      ("producent", PyVal.str "William Fèvre"),
      ("land", PyVal.str "Frankrike"),
      ("region", PyVal.str "Bourgogne"),
      ("pris_sek", PyVal.num 265),
      ("beskrivning", PyVal.str "Mineralisk Chardonnay med toner av citrus och vit persika. Utmärkt till skaldjur och vit fisk."),
      ("druva", PyVal.str "Chardonnay"),
      ("ekologisk", PyVal.bool false),
      ("lagerstatus", PyVal.str "tillgänglig") ],
    [ ("namn", PyVal.str "Rioja Reserva DOCa 2018"),
      ("producent", PyVal.str "Marqués de Riscal"),
      ("land", PyVal.str "Spanien"),
      ("region", PyVal.str "Rioja"),
      ("pris_sek", PyVal.num 185),
      ("beskrivning", PyVal.str "Balanserad Tempranillo med toner av röda bär, vanilj och ek. Passar lamm och tapas."),
      ("druva", PyVal.str "Tempranillo"),
      ("ekologisk", PyVal.bool false),
      ("lagerstatus", PyVal.str "tillgänglig") ],
    [ ("namn", PyVal.str "Pouilly-Fumé 2022"),
      ("producent", PyVal.str "Domaine Didier Dagueneau"),
      ("land", PyVal.str "Frankrike"),
      ("region", PyVal.str "Loire"),
      ("pris_sek", PyVal.num 345),
      ("beskrivning", PyVal.str "Aromatisk Sauvignon Blanc med toner av färsk frukt och mineraler. Perfekt till getost och skaldjur."),
      ("druva", PyVal.str "Sauvignon Blanc"),
      ("ekologisk", PyVal.bool true),
      ("lagerstatus", PyVal.str "tillgänglig") ],
    [ ("namn", PyVal.str "Amarone della Valpolicella DOCG 2017"),
      ("producent", PyVal.str "Tommasi"),
      ("land", PyVal.str "Italien"),
      ("region", PyVal.str "Veneto"),
      ("pris_sek", PyVal.num 425),
      ("beskrivning", PyVal.str "Kraftfull och komplex med toner av mörka bär, choklad och kryddor. Passar ostklass och vilt."),
      ("druva", PyVal.str "Corvina, Rondinella"),
      ("ekologisk", PyVal.bool false),
      ("lagerstatus", PyVal.str "tillgänglig") ],
    [ ("namn", PyVal.str "Châteauneuf-du-Pape 2019"),
      ("producent", PyVal.str "Domaine du Vieux Télégraphe"),
      ("land", PyVal.str "Frankrike"),
      ("region", PyVal.str "Rhône"),
      ("pris_sek", PyVal.num 395),
      ("beskrivning", PyVal.str "Komplex blend med toner av mörka bär, örter och kryddor. Perfekt till grillat kött."),
      ("druva", PyVal.str "Grenache, Syrah, Mourvèdre"),
      ("ekologisk", PyVal.bool false),
      ("lagerstatus", PyVal.str "tillgänglig") ],
    [ ("namn", PyVal.str "Sancerre 2022"),
      ("producent", PyVal.str "Pascal Jolivet"),
      ("land", PyVal.str "Frankrike"),
      ("region", PyVal.str "Loire"),
      ("pris_sek", PyVal.num 195),
      ("beskrivning", PyVal.str "Fräsch Sauvignon Blanc med toner av citrus och gröna äpplen. Perfekt till getost."),
      ("druva", PyVal.str "Sauvignon Blanc"),
      ("ekologisk", PyVal.bool false),
      ("lagerstatus", PyVal.str "tillgänglig") ] ]

/-- `create_200_wines` from `import-simple.py`: 25 repetitions over the
eight `BASE_WINES` templates, sliced to 200. -/
def create_200_wines : List Rec :=
  mockExpand deriveSimple 25 BASE_WINES

/-- `transform_systembolaget_to_winefeed`: one raw record in, one
canonical record out.  Each field prefers the provider key, falls back to
the mock key, then to a fixed default; `int(...)` on the price value is
the only fallible step. -/
def transform_systembolaget_to_winefeed (product : Rec) :
    Except String Rec :=
  match pyInt (recGetD product "price"
      (recGetD product "priceInclVat" (PyVal.num 0))) with
  | Except.error e => Except.error e
  | Except.ok p => Except.ok
    [ ("namn", recGetD product "productNameBold"
        (recGetD product "name" (PyVal.str "Okänt vin"))),
      ("producent", recGetD product "producerName"
        (recGetD product "producer" (PyVal.str "Okänd"))),
      ("land", recGetD product "country" (PyVal.str "Okänt")),
      ("region", recGetD product "region" PyVal.none),
      ("pris_sek", PyVal.num p),
      ("beskrivning", recGetD product "taste"
        (recGetD product "description"
          (PyVal.str "Ingen beskrivning tillgänglig"))),
      ("druva", recGetD product "grapes"
        (recGetD product "grape" PyVal.none)),
      ("ekologisk", recGetD product "isOrganic"
        (recGetD product "organic" (PyVal.bool false))),
      ("lagerstatus", PyVal.str "tillgänglig"),
      ("systembolaget_id", PyVal.str (pyStr (recGetD product "productNumber"
        (recGetD product "productId" (PyVal.str ""))))) ]

/-- A parsed JSON document, for the body of the provider response (the
fetch path needs nested objects and arrays, unlike the flat record
dicts). -/
inductive Json : Type where
  | obj (fields : List (String × Json))
  | arr (xs : List Json)
  | str (s : String)
  | num (n : ℤ)
  | bool (b : Bool)
  | null

/-- Lookup in a parsed JSON object (Python `dict.get` on the decoded
body). -/
def jsonGet (fields : List (String × Json)) (k : String) : Option Json :=
  (fields.find? (fun p => p.1 == k)).map (fun p => p.2)

/-- The possible outcomes of the single `requests.get` call in
`fetch_wines_from_systembolaget`: a transport failure, the fixed 30 s
timeout expiring, or an HTTP response with a status code and a body that
either parses to a `Json` value or does not parse (`Option.none`). -/
inductive FetchOutcome : Type where
  | networkFailure
  | timeout
  | response (status : ℕ) (body : Option Json)

/-- `fetch_wines_from_systembolaget`, as a function of the HTTP outcome.
Transport failures and timeouts raise `requests.exceptions.RequestException`
subclasses, caught by the handler, which returns `[]`.
`response.raise_for_status()` raises (caught likewise) exactly when the
status code is in `[400, 600)`.  An unparseable body makes
`response.json()` raise `requests.exceptions.JSONDecodeError`, a
`RequestException` subclass, again caught.  `data.get('products', [])`
returns the value at the key (or `[]`) when the parsed body is an object,
and raises `AttributeError` — which the handler does not catch — when it
is any other JSON value. -/
def fetch_wines_from_systembolaget : FetchOutcome → Except String Json
  | FetchOutcome.networkFailure => Except.ok (Json.arr [])
  | FetchOutcome.timeout => Except.ok (Json.arr [])
  | FetchOutcome.response status body =>
    if 400 ≤ status ∧ status < 600 then Except.ok (Json.arr [])
    else
      match body with
      | Option.none => Except.ok (Json.arr [])
      | Option.some (Json.obj fields) =>
          Except.ok ((jsonGet fields "products").getD (Json.arr []))
      | Option.some _ => Except.error "AttributeError"

/-- Python truthiness of an optional environment string: `os.getenv`
yields `None` when unset, and both `None` and the empty string are falsy
in the `if not SUPABASE_URL or not SUPABASE_SERVICE_KEY` guard. -/
def truthyEnv : Option String → Bool
  | Option.none => false
  | Option.some s => s ≠ ""

/-- The batching loop of `upload_to_supabase`:
`for i in range(0, len(wines), 50): batch = wines[i:i+50]`, one POST per
batch.  Modelled recursively: first 50 records, then the batches of the
rest. -/
def uploadChunks : List Rec → List (List Rec)
  | [] => []
  | w :: ws => (w :: ws).take 50 :: uploadChunks ((w :: ws).drop 50)
  termination_by l => l.length
  decreasing_by simp [List.length_drop]; omega

/-- `upload_to_supabase`, modelled by the sequence of POST request bodies
it issues: none when either credential is missing or falsy (the guard
returns early), otherwise one per 50-record batch.  A failing POST is
caught, logged and skipped, so the batch sequence is issued in full either
way and the function always returns normally. -/
def upload_to_supabase (url key : Option String) (wines : List Rec) :
    List (List Rec) :=
  if truthyEnv url ∧ truthyEnv key then uploadChunks wines else []

/-- The data flow of `main` from the fetch result onward: if the fetched
sequence is empty, fall back to `create_mock_wines`; transform the active
sequence element-wise (a list comprehension, so the first transformer
error would abort the run).  The result is the sequence that is persisted
and optionally uploaded. -/
def mainWines (products : List Rec) : Except String (List Rec) :=
  (if products.isEmpty then create_mock_wines else products).mapM
    transform_systembolaget_to_winefeed

/-- Decidable equality for `Except` results, used to evaluate the
embedded functions on concrete inputs. -/
instance {α β : Type} [DecidableEq α] [DecidableEq β] :
    DecidableEq (Except α β) := fun a b =>
  match a, b with
  | Except.ok x, Except.ok y =>
    if h : x = y then Decidable.isTrue (by rw [h])
    else Decidable.isFalse (by simp [h])
  | Except.error x, Except.error y =>
    if h : x = y then Decidable.isTrue (by rw [h])
    else Decidable.isFalse (by simp [h])
  | Except.ok _, Except.error _ => Decidable.isFalse (by simp)
  | Except.error _, Except.ok _ => Decidable.isFalse (by simp)

theorem recGet?_recSet_self (d : Rec) (k : String) (v : PyVal) :
    recGet? (recSet d k v) k = some v := by
  induction d with
  | nil => simp [recSet, recGet?, List.find?]
  | cons a t ih =>
    cases hk : (a.1 == k) with
    | true => simp [recSet, recGet?, List.find?, hk]
    | false =>
      simp only [recSet, hk, Bool.false_eq_true, if_false]
      simpa [recGet?, List.find?, hk] using ih

theorem recGet?_recSet_ne (d : Rec) (k k' : String) (v : PyVal)
    (h : k' ≠ k) :
    recGet? (recSet d k v) k' = recGet? d k' := by
  have hkk : ((k : String) == k') = false := by
    simp only [beq_eq_false_iff_ne, ne_eq]
    exact fun hkk => h hkk.symm
  induction d with
  | nil => simp [recSet, recGet?, List.find?, hkk]
  | cons a t ih =>
    cases hk : (a.1 == k) with
    | true =>
      have ha : a.1 = k := by simpa using hk
      have h2 : (a.1 == k') = false := by
        rw [ha]
        exact hkk
      simp [recSet, recGet?, List.find?, hk, hkk, h2]
    | false =>
      cases h3 : (a.1 == k') with
      | true => simp [recSet, recGet?, List.find?, hk, h3]
      | false =>
        simp only [recSet, hk, Bool.false_eq_true, if_false]
        simpa [recGet?, List.find?, hk, h3] using ih

theorem uploadChunks_flatten : ∀ l : List Rec, (uploadChunks l).flatten = l
  | [] => by simp [uploadChunks]
  | w :: ws => by
    rw [uploadChunks]
    simp only [List.flatten_cons]
    rw [uploadChunks_flatten ((w :: ws).drop 50)]
    exact List.take_append_drop 50 (w :: ws)
  termination_by l => l.length
  decreasing_by simp [List.length_drop]; omega

theorem uploadChunks_length :
    ∀ l : List Rec, (uploadChunks l).length = (l.length + 49) / 50
  | [] => by simp [uploadChunks]
  | w :: ws => by
    rw [uploadChunks]
    simp only [List.length_cons]
    rw [uploadChunks_length ((w :: ws).drop 50)]
    simp only [List.length_drop, List.length_cons]
    omega
  termination_by l => l.length
  decreasing_by simp [List.length_drop]; omega

theorem uploadChunks_mem :
    ∀ l : List Rec, ∀ b ∈ uploadChunks l, b ≠ [] ∧ b.length ≤ 50
  | [] => by simp [uploadChunks]
  | w :: ws => by
    rw [uploadChunks]
    intro b hb
    rcases List.mem_cons.mp hb with h | h
    · subst h
      exact ⟨by simp, List.length_take_le 50 (w :: ws)⟩
    · exact uploadChunks_mem _ b h
  termination_by l => l.length
  decreasing_by simp [List.length_drop]; omega

theorem mockExpand_length (derive : ℕ → Rec → Rec) (reps : ℕ)
    (templates : List Rec) :
    (mockExpand derive reps templates).length =
      min 200 (reps * templates.length) := by
  unfold mockExpand
  rw [List.length_take, List.length_flatten]
  congr 1
  rw [List.map_map]
  simp only [Function.comp_def, List.length_map]
  rw [List.map_const', List.length_range, List.sum_replicate, smul_eq_mul]

/-- C6: for outer repetition count `R` and base-template count `B` with
`R·B ≥ 200`, the Mock Generator's output (the nested repetition loop
followed by the `[:200]` slice, the common shape of `create_mock_wines`
and `create_200_wines`) has length exactly 200. -/
theorem mock_generator_length_200 (derive : ℕ → Rec → Rec) (reps : ℕ)
    (templates : List Rec) (h : 200 ≤ reps * templates.length) :
    (mockExpand derive reps templates).length = 200 := by
  rw [mockExpand_length]
  omega

/-- Witness for C6: both concrete generation paths satisfy `R·B ≥ 200`
(25·8 = 200) and produce exactly 200 records. -/
theorem mock_generator_length_200_witness :
    200 ≤ 25 * sbBaseWines.length ∧ 200 ≤ 25 * BASE_WINES.length
    ∧ create_mock_wines.length = 200 ∧ create_200_wines.length = 200 :=
  ⟨by decide, by decide,
    mock_generator_length_200 deriveSB 25 sbBaseWines (by decide),
    mock_generator_length_200 deriveSimple 25 BASE_WINES (by decide)⟩

/-- C3: with both storage credentials present, the Batch Uploader issues
exactly `ceil(N/50)` POSTs; every batch is non-empty and has at most 50
records, and the batches concatenate, in emission order, to the original
sequence. -/
theorem upload_partition (url key : Option String) (wines : List Rec)
    (hu : truthyEnv url = true) (hk : truthyEnv key = true) :
    upload_to_supabase url key wines = uploadChunks wines
    ∧ (upload_to_supabase url key wines).length = (wines.length + 49) / 50
    ∧ (∀ b ∈ upload_to_supabase url key wines, b ≠ [] ∧ b.length ≤ 50)
    ∧ (upload_to_supabase url key wines).flatten = wines := by
  have he : upload_to_supabase url key wines = uploadChunks wines := by
    unfold upload_to_supabase
    rw [if_pos ⟨hu, hk⟩]
  refine ⟨he, ?_, ?_, ?_⟩ <;> rw [he]
  · exact uploadChunks_length wines
  · exact uploadChunks_mem wines
  · exact uploadChunks_flatten wines

/-- Witness for C3: 120 records under concrete credentials yield
`ceil(120/50) = 3` batches. -/
theorem upload_partition_witness :
    (upload_to_supabase (some "https://example.supabase.co") (some "key")
      (List.replicate 120 ([] : Rec))).length = (120 + 49) / 50 := by
  have h := upload_partition (some "https://example.supabase.co")
    (some "key") (List.replicate 120 ([] : Rec)) rfl rfl
  simpa using h.2.1

/-- C9: with the storage base URL or the service credential absent (or
empty, which the guard treats the same), the uploader issues zero POSTs
for every input sequence. -/
theorem upload_skip_without_credentials (url key : Option String)
    (wines : List Rec)
    (h : truthyEnv url = false ∨ truthyEnv key = false) :
    upload_to_supabase url key wines = [] := by
  unfold upload_to_supabase
  rcases h with h | h <;> exact if_neg (by simp [h])

/-- Witness for C9: 120 records with no storage URL configured produce an
empty POST sequence. -/
theorem upload_skip_without_credentials_witness :
    truthyEnv Option.none = false
    ∧ upload_to_supabase Option.none (some "key")
        (List.replicate 120 ([] : Rec)) = [] :=
  ⟨rfl, upload_skip_without_credentials Option.none (some "key")
    (List.replicate 120 ([] : Rec)) (Or.inl rfl)⟩

/-- C5: if the fetched sequence is empty the driver transforms exactly the
Mock Generator output, and if it is non-empty the driver transforms
exactly the fetched sequence — never a mixture. -/
theorem main_fallback (products : List Rec) :
    (products = [] →
      mainWines products =
        create_mock_wines.mapM transform_systembolaget_to_winefeed)
    ∧ (products ≠ [] →
      mainWines products =
        products.mapM transform_systembolaget_to_winefeed) := by
  constructor
  · intro h
    simp [mainWines, h]
  · intro h
    simp [mainWines, List.isEmpty_eq_false.mpr h]

/-- Witness for C5: the empty fetch result falls back to the mock data,
and a one-record fetch result is transformed as-is. -/
theorem main_fallback_witness :
    mainWines [] =
      create_mock_wines.mapM transform_systembolaget_to_winefeed
    ∧ mainWines [[("name", PyVal.str "X")]] =
        [[("name", PyVal.str "X")]].mapM
          transform_systembolaget_to_winefeed :=
  ⟨(main_fallback []).1 rfl, (main_fallback _).2 (by simp)⟩

/-- C2 counterexample: in `create_mock_wines` the derived name keeps the
FULL template name (the f-string interpolates `wine['name']` unsplit), so
the first generated record is named "Barolo DOCG 2015", not the
first-token form "Barolo 2015" the claim prescribes for both
generators. -/
theorem mock_name_full_counterexample :
    recGet? (create_mock_wines.headD []) "name" =
      some (PyVal.str "Barolo DOCG 2015")
    ∧ pySplitHead (pyStr (recItem (sbBaseWines.headD []) "name")) ++ " " ++
        toString (2015 + 0 % 8) = "Barolo 2015"
    ∧ ("Barolo DOCG 2015" : String) ≠ "Barolo 2015" := by
  refine ⟨by decide, by decide, by decide⟩

/-- C2 amended: for every repetition index `i` and record `w`,
`create_200_wines`' loop body derives the name as the first
whitespace-delimited token of the template name followed by the vintage
year `2015 + (i mod 8)`, while `create_mock_wines`' loop body uses the
full template name followed by that year. -/
theorem mock_name_derivation (i : ℕ) (w : Rec) :
    recGet? (deriveSimple i w) "namn" =
      some (PyVal.str (pySplitHead (pyStr (recItem w "namn")) ++ " " ++
        toString (2015 + i % 8)))
    ∧ recGet? (deriveSB i w) "name" =
      some (PyVal.str (pyStr (recItem w "name") ++ " " ++
        toString (2015 + i % 8))) := by
  constructor
  · unfold deriveSimple
    rw [recGet?_recSet_ne _ _ _ _ (by decide), recGet?_recSet_self]
  · unfold deriveSB
    rw [recGet?_recSet_ne _ _ _ _ (by decide), recGet?_recSet_self]

/-- C7: in both loop bodies the derived price is the template's base
price plus `(i·10) mod 100`, hence at least the base price and strictly
below base price plus 100. -/
theorem mock_price_derivation (i : ℕ) (w u : Rec) (p q : ℤ)
    (hw : recItem w "price" = PyVal.num p)
    (hu : recItem u "pris_sek" = PyVal.num q) :
    recGet? (deriveSB i w) "price" =
      some (PyVal.num (p + (i * 10 % 100 : ℕ)))
    ∧ recGet? (deriveSimple i u) "pris_sek" =
      some (PyVal.num (q + (i * 10 % 100 : ℕ)))
    ∧ p ≤ p + ((i * 10 % 100 : ℕ) : ℤ)
    ∧ p + ((i * 10 % 100 : ℕ) : ℤ) < p + 100
    ∧ q ≤ q + ((i * 10 % 100 : ℕ) : ℤ)
    ∧ q + ((i * 10 % 100 : ℕ) : ℤ) < q + 100 := by
  refine ⟨?_, ?_, by omega, by omega, by omega, by omega⟩
  · unfold deriveSB
    rw [recGet?_recSet_self, hw]
    rfl
  · unfold deriveSimple
    rw [recGet?_recSet_self, hu]
    rfl

/-- Witness for C7: repetition 3 over the first template of each
generator adds `(3·10) mod 100 = 30` to the base prices 385. -/
theorem mock_price_derivation_witness :
    recItem (sbBaseWines.headD []) "price" = PyVal.num 385
    ∧ recItem (BASE_WINES.headD []) "pris_sek" = PyVal.num 385
    ∧ recGet? (deriveSB 3 (sbBaseWines.headD [])) "price" =
        some (PyVal.num (385 + (3 * 10 % 100 : ℕ))) :=
  ⟨by decide, by decide,
    (mock_price_derivation 3 (sbBaseWines.headD []) (BASE_WINES.headD [])
      385 385 (by decide) (by decide)).1⟩

/-- C4 counterexample: a 2xx response whose body parses to a JSON value
that is not an object — here an array, which is "a parsed body missing
the products key" — makes `data.get(...)` raise `AttributeError` through
the `except requests.exceptions.RequestException` handler, instead of
returning the empty list the claim requires. -/
theorem fetch_nonobject_body_raises :
    fetch_wines_from_systembolaget
        (FetchOutcome.response 200 (some (Json.arr []))) =
      Except.error "AttributeError"
    ∧ (Except.error "AttributeError" : Except String Json) ≠
        Except.ok (Json.arr []) :=
  ⟨rfl, by simp⟩

/-- C4 amended: the fetcher returns the empty list on transport failure,
timeout, an error status (400–599, where `raise_for_status` raises), an
unparseable body, or a parsed JSON-object body without the products key;
it returns the products value whenever the status is not an error status
and the parsed body is an object containing the key; and it raises
(`AttributeError`) past its boundary exactly when the status is not an
error status and the body parses to a non-object JSON value. -/
theorem fetch_error_absorption :
    fetch_wines_from_systembolaget FetchOutcome.networkFailure =
      Except.ok (Json.arr [])
    ∧ fetch_wines_from_systembolaget FetchOutcome.timeout =
        Except.ok (Json.arr [])
    ∧ (∀ s b, 400 ≤ s → s < 600 →
        fetch_wines_from_systembolaget (FetchOutcome.response s b) =
          Except.ok (Json.arr []))
    ∧ (∀ s, ¬(400 ≤ s ∧ s < 600) →
        fetch_wines_from_systembolaget (FetchOutcome.response s Option.none) =
          Except.ok (Json.arr []))
    ∧ (∀ s fields, ¬(400 ≤ s ∧ s < 600) →
        jsonGet fields "products" = Option.none →
        fetch_wines_from_systembolaget
            (FetchOutcome.response s (some (Json.obj fields))) =
          Except.ok (Json.arr []))
    ∧ (∀ s fields v, ¬(400 ≤ s ∧ s < 600) →
        jsonGet fields "products" = some v →
        fetch_wines_from_systembolaget
            (FetchOutcome.response s (some (Json.obj fields))) =
          Except.ok v) := by
  refine ⟨rfl, rfl, ?_, ?_, ?_, ?_⟩
  · intro s b h1 h2
    simp only [fetch_wines_from_systembolaget]
    rw [if_pos ⟨h1, h2⟩]
  · intro s h
    simp only [fetch_wines_from_systembolaget]
    rw [if_neg h]
  · intro s fields h hg
    simp only [fetch_wines_from_systembolaget]
    rw [if_neg h]
    simp [hg]
  · intro s fields v h hg
    simp only [fetch_wines_from_systembolaget]
    rw [if_neg h]
    simp [hg]

/-- Witness for C4 (amended): a 500 response with a body, a 200 response
with an unparseable body, and a 200 object body carrying a products array
all behave as stated. -/
theorem fetch_error_absorption_witness :
    fetch_wines_from_systembolaget
        (FetchOutcome.response 500 (some (Json.obj []))) =
      Except.ok (Json.arr [])
    ∧ fetch_wines_from_systembolaget (FetchOutcome.response 200 Option.none) =
        Except.ok (Json.arr [])
    ∧ fetch_wines_from_systembolaget
          (FetchOutcome.response 200
            (some (Json.obj [("products", Json.arr [Json.num 7])]))) =
        Except.ok (Json.arr [Json.num 7]) :=
  ⟨fetch_error_absorption.2.2.1 500 (some (Json.obj [])) (by omega) (by omega),
    fetch_error_absorption.2.2.2.1 200 (by omega),
    fetch_error_absorption.2.2.2.2.2 200 [("products", Json.arr [Json.num 7])]
      (Json.arr [Json.num 7]) (by omega) rfl⟩

/-- C1 counterexample: on the mock fallback path the transformed record
still carries the `systembolaget_id` key — `str(product.get(...,''))`
always produces a string, here the empty one — so a persisted mock record
does have an external-identifier field, contrary to the claim that none
does. -/
theorem mock_external_id_present :
    (transform_systembolaget_to_winefeed (create_mock_wines.headD [])).map
      (fun r => (recGet? r "systembolaget_id").isSome) = Except.ok true := by
  decide

set_option maxRecDepth 100000 in
/-- C1 amended: every mock-path record is transformed with
`systembolaget_id` present and equal to the empty string (the key is
emitted, with no provider identifier behind it), while a record carrying a
provider `productNumber` gets `str(productNumber)` as its external
identifier. -/
theorem external_id_amended :
    (∀ w ∈ create_mock_wines,
      (transform_systembolaget_to_winefeed w).map
        (fun r => recGet? r "systembolaget_id") =
        Except.ok (some (PyVal.str "")))
    ∧ (∀ (p : Rec) (v : PyVal) (r : Rec),
        recGet? p "productNumber" = some v →
        transform_systembolaget_to_winefeed p = Except.ok r →
        recGet? r "systembolaget_id" = some (PyVal.str (pyStr v))) := by
  constructor
  · decide
  · intro p v r h1 h2
    unfold transform_systembolaget_to_winefeed at h2
    cases hp : pyInt (recGetD p "price"
        (recGetD p "priceInclVat" (PyVal.num 0))) with
    | error e =>
      rw [hp] at h2
      cases h2
    | ok n =>
      rw [hp] at h2
      injection h2 with h2
      rw [← h2]
      have h3 : recGetD p "productNumber"
          (recGetD p "productId" (PyVal.str "")) = v := by
        simp only [recGetD, h1, Option.getD_some]
      rw [h3]
      simp [recGet?, List.find?]

/-- Witness for C1 (amended): a concrete provider record with
`productNumber` 1234 is transformed with external identifier "1234". -/
theorem external_id_amended_witness :
    recGet? [("productNumber", PyVal.num 1234)] "productNumber" =
      some (PyVal.num 1234)
    ∧ recGet?
        [ ("namn", PyVal.str "Okänt vin"), ("producent", PyVal.str "Okänd"),
          ("land", PyVal.str "Okänt"), ("region", PyVal.none),
          ("pris_sek", PyVal.num 0),
          ("beskrivning", PyVal.str "Ingen beskrivning tillgänglig"),
          ("druva", PyVal.none), ("ekologisk", PyVal.bool false),
          ("lagerstatus", PyVal.str "tillgänglig"),
          ("systembolaget_id", PyVal.str "1234") ] "systembolaget_id" =
      some (PyVal.str (pyStr (PyVal.num 1234))) :=
  ⟨by decide, external_id_amended.2 [("productNumber", PyVal.num 1234)]
    (PyVal.num 1234) _ (by decide) (by decide)⟩

/-- C8: the Record Transformer is total on records with fields missing:
whenever the price-relevant fields, if present at all, are numeric, the
transformation succeeds, the output carries exactly the ten canonical
keys in order, and every field whose source keys are absent receives its
documented default. -/
theorem transform_total (d : Rec)
    (h : ∀ v, (recGet? d "price" = some v ∨
        recGet? d "priceInclVat" = some v) → ∃ n : ℤ, v = PyVal.num n) :
    ∃ r, transform_systembolaget_to_winefeed d = Except.ok r
    ∧ r.map Prod.fst = ["namn", "producent", "land", "region", "pris_sek",
        "beskrivning", "druva", "ekologisk", "lagerstatus",
        "systembolaget_id"]
    ∧ (recGet? d "productNameBold" = Option.none →
        recGet? d "name" = Option.none →
        recGet? r "namn" = some (PyVal.str "Okänt vin"))
    ∧ (recGet? d "producerName" = Option.none →
        recGet? d "producer" = Option.none →
        recGet? r "producent" = some (PyVal.str "Okänd"))
    ∧ (recGet? d "country" = Option.none →
        recGet? r "land" = some (PyVal.str "Okänt"))
    ∧ (recGet? d "region" = Option.none →
        recGet? r "region" = some PyVal.none)
    ∧ (recGet? d "price" = Option.none →
        recGet? d "priceInclVat" = Option.none →
        recGet? r "pris_sek" = some (PyVal.num 0))
    ∧ (recGet? d "taste" = Option.none →
        recGet? d "description" = Option.none →
        recGet? r "beskrivning" =
          some (PyVal.str "Ingen beskrivning tillgänglig"))
    ∧ (recGet? d "grapes" = Option.none → recGet? d "grape" = Option.none →
        recGet? r "druva" = some PyVal.none)
    ∧ (recGet? d "isOrganic" = Option.none →
        recGet? d "organic" = Option.none →
        recGet? r "ekologisk" = some (PyVal.bool false))
    ∧ recGet? r "lagerstatus" = some (PyVal.str "tillgänglig")
    ∧ (recGet? d "productNumber" = Option.none →
        recGet? d "productId" = Option.none →
        recGet? r "systembolaget_id" = some (PyVal.str "")) := by
  have hpv : ∃ n : ℤ, pyInt (recGetD d "price"
      (recGetD d "priceInclVat" (PyVal.num 0))) = Except.ok n := by
    cases hp : recGet? d "price" with
    | some v =>
      obtain ⟨n, rfl⟩ := h v (Or.inl hp)
      exact ⟨n, by simp [recGetD, hp, pyInt]⟩
    | none =>
      cases hq : recGet? d "priceInclVat" with
      | some v =>
        obtain ⟨n, rfl⟩ := h v (Or.inr hq)
        exact ⟨n, by simp [recGetD, hp, hq, pyInt]⟩
      | none => exact ⟨0, by simp [recGetD, hp, hq, pyInt]⟩
  obtain ⟨n, hn⟩ := hpv
  have ht : transform_systembolaget_to_winefeed d = Except.ok
      [ ("namn", recGetD d "productNameBold"
          (recGetD d "name" (PyVal.str "Okänt vin"))),
        ("producent", recGetD d "producerName"
          (recGetD d "producer" (PyVal.str "Okänd"))),
        ("land", recGetD d "country" (PyVal.str "Okänt")),
        ("region", recGetD d "region" PyVal.none),
        ("pris_sek", PyVal.num n),
        ("beskrivning", recGetD d "taste"
          (recGetD d "description"
            (PyVal.str "Ingen beskrivning tillgänglig"))),
        ("druva", recGetD d "grapes" (recGetD d "grape" PyVal.none)),
        ("ekologisk", recGetD d "isOrganic"
          (recGetD d "organic" (PyVal.bool false))),
        ("lagerstatus", PyVal.str "tillgänglig"),
        ("systembolaget_id", PyVal.str (pyStr (recGetD d "productNumber"
          (recGetD d "productId" (PyVal.str ""))))) ] := by
    unfold transform_systembolaget_to_winefeed
    rw [hn]
  refine ⟨_, ht, rfl, ?_, ?_, ?_, ?_, ?_, ?_, ?_, ?_, ?_, ?_⟩
  · intro h1 h2
    simp only [recGet?] at h1 h2
    simp [recGet?, List.find?, recGetD, h1, h2]
  · intro h1 h2
    simp only [recGet?] at h1 h2
    simp [recGet?, List.find?, recGetD, h1, h2]
  · intro h1
    simp only [recGet?] at h1
    simp [recGet?, List.find?, recGetD, h1]
  · intro h1
    simp only [recGet?] at h1
    simp [recGet?, List.find?, recGetD, h1]
  · intro h1 h2
    simp only [recGetD, h1, h2, Option.getD_none, pyInt] at hn
    injection hn with hn
    rw [← hn]
    simp [recGet?, List.find?]
  · intro h1 h2
    simp only [recGet?] at h1 h2
    simp [recGet?, List.find?, recGetD, h1, h2]
  · intro h1 h2
    simp only [recGet?] at h1 h2
    simp [recGet?, List.find?, recGetD, h1, h2]
  · intro h1 h2
    simp only [recGet?] at h1 h2
    simp [recGet?, List.find?, recGetD, h1, h2]
  · simp [recGet?, List.find?]
  · intro h1 h2
    simp only [recGet?] at h1 h2
    simp [recGet?, List.find?, recGetD, h1, h2, pyStr]

/-- Witness for C8: the empty record (every field missing) transforms
successfully into the all-defaults canonical record. -/
theorem transform_total_witness :
    ∃ r, transform_systembolaget_to_winefeed [] = Except.ok r
    ∧ r.map Prod.fst = ["namn", "producent", "land", "region", "pris_sek",
        "beskrivning", "druva", "ekologisk", "lagerstatus",
        "systembolaget_id"]
    ∧ recGet? r "pris_sek" = some (PyVal.num 0)
    ∧ recGet? r "ekologisk" = some (PyVal.bool false)
    ∧ recGet? r "lagerstatus" = some (PyVal.str "tillgänglig") := by
  obtain ⟨r, h1, h2, _, _, _, _, h7, _, _, h9, h10, _⟩ :=
    transform_total [] (by intro v hv; rcases hv with hv | hv <;> cases hv)
  exact ⟨r, h1, h2, h7 rfl rfl, h9 rfl rfl, h10⟩

set_option maxRecDepth 100000 in
set_option maxHeartbeats 4000000 in
/-- C10: for every record produced by `create_mock_wines`, the
Transformer's fallback chains resolve to the record's own values — the
canonical name, producer, country, region, price, description, grape and
organic fields equal the mock record's `name`, `producer`, `country`,
`region`, `price`, `description`, `grape` and `organic` values, and no
default is substituted on the mock path. -/
theorem mock_transform_identity : ∀ w ∈ create_mock_wines,
    transform_systembolaget_to_winefeed w = Except.ok
      [ ("namn", recItem w "name"), ("producent", recItem w "producer"),
        ("land", recItem w "country"), ("region", recItem w "region"),
        ("pris_sek", recItem w "price"),
        ("beskrivning", recItem w "description"),
        ("druva", recItem w "grape"), ("ekologisk", recItem w "organic"),
        ("lagerstatus", PyVal.str "tillgänglig"),
        ("systembolaget_id", PyVal.str "") ] := by
  decide

set_option maxRecDepth 100000 in
/-- Witness for C10: the first generated mock record is in the list and
transforms to its own field values. -/
theorem mock_transform_identity_witness :
    (create_mock_wines.headD []) ∈ create_mock_wines
    ∧ transform_systembolaget_to_winefeed (create_mock_wines.headD []) =
      Except.ok
        [ ("namn", recItem (create_mock_wines.headD []) "name"),
          ("producent", recItem (create_mock_wines.headD []) "producer"),
          ("land", recItem (create_mock_wines.headD []) "country"),
          ("region", recItem (create_mock_wines.headD []) "region"),
          ("pris_sek", recItem (create_mock_wines.headD []) "price"),
          ("beskrivning", recItem (create_mock_wines.headD []) "description"),
          ("druva", recItem (create_mock_wines.headD []) "grape"),
          ("ekologisk", recItem (create_mock_wines.headD []) "organic"),
          ("lagerstatus", PyVal.str "tillgänglig"),
          ("systembolaget_id", PyVal.str "") ] :=
  ⟨by decide, mock_transform_identity (create_mock_wines.headD []) (by decide)⟩

end Winefeed
